import Mathlib

/-!
Verification development for the Fafali attendance manager.

The definitions below are shallow embeddings of the repository's Python
functions: CSV tables become lists of typed rows, pandas DataFrame
filters become `List.filter`, and the Streamlit form state (`checked`,
`notes` dicts) becomes association lists.  Each definition's doc comment
names the source function it embeds.
-/

/-- Row of `kids.csv` (schema from `init_files_and_starter` in `app.py`). -/
structure Kid where
  id : String
  name : String
  age : String
  program : String
  dob : String
  gender : String
  school : String
  location : String
  guardian_name : String
  guardian_contact : String
  relationship : String
  image : String
deriving DecidableEq, Repr

/-- Row of `attendance.csv` (schema from `init_files_and_starter` in `app.py`). -/
structure AttRecord where
  date : String
  kid_id : String
  present : String
  note : String
  program : String
  marked_by : String
  timestamp : String
deriving DecidableEq, Repr

/-- Embeds Python `str.strip()`: drop leading and trailing whitespace. -/
def pyStrip (s : String) : String :=
  ⟨((s.data.dropWhile Char.isWhitespace).reverse.dropWhile Char.isWhitespace).reverse⟩

/-- Embeds Python `str.lower()` (ASCII, as the repository uses it). -/
def pyLower (s : String) : String := ⟨s.data.map Char.toLower⟩

/-- Embeds `kids[kids["id"] == kid_id]["program"].values[0] if not kids.empty else ""`
from the save loop of `page_attendance` (`app.py` line 455).  `.values[0]`
on an empty selection raises in Python, hence the `Option`. -/
def lookupProgram (kids : List Kid) (kid_id : String) : Option String :=
  if kids.isEmpty then some ""
  else (kids.filter (fun k => k.id == kid_id)).head?.map (fun k => k.program)

/-- Embeds `notes.get(kid_id, "")` (`app.py` line 456): the `notes` dict is
an association list, lookup defaults to the empty string. -/
def notesGet (notes : List (String × String)) (kid_id : String) : String :=
  match notes.find? (fun p => p.1 == kid_id) with
  | some p => p.2
  | none => ""

/-- One row appended by the save loop of `page_attendance` (`app.py` line 456). -/
def buildRow (att_str kid_id : String) (is_present : Bool)
    (note prog username now : String) : AttRecord :=
  { date := att_str, kid_id := kid_id,
    present := if is_present then "1" else "0",
    note := note, program := prog, marked_by := username, timestamp := now }

/-- Embeds the `for kid_id, is_present in checked.items()` loop of
`page_attendance` (`app.py` lines 454-457): one record per entry of the
`checked` dict, in insertion order; `none` models the crash of
`.values[0]` when a kid id has no row in `kids`. -/
def buildRows (kids : List Kid) (att_str : String) :
    List (String × Bool) → List (String × String) → String → String →
    Option (List AttRecord)
  | [], _, _, _ => some []
  | c :: cs, notes, username, now =>
    match lookupProgram kids c.1 with
    | none => none
    | some prog =>
      (buildRows kids att_str cs notes username now).map
        (fun rest =>
          buildRow att_str c.1 c.2 (notesGet notes c.1) prog username now :: rest)

/-- Embeds the `Save attendance` branch of `page_attendance` (`app.py`
lines 451-458): `new_att = att[att["date"] != att_str]` (a global
delete-by-date), then one appended row per `checked` entry, and the
result is what `atomic_save_csv(ATT_CSV, new_att)` persists. -/
def saveAttendance (kids : List Kid) (att : List AttRecord) (att_str : String)
    (checked : List (String × Bool)) (notes : List (String × String))
    (username now : String) : Option (List AttRecord) :=
  (buildRows kids att_str checked notes username now).map
    (fun rows => att.filter (fun r => r.date != att_str) ++ rows)

/-- Embeds the scope computation of `page_attendance` (`app.py` lines
396-415): a chosen program filters `kids` to that program; otherwise an
admin scopes all kids and a leader scopes the kids whose `program` is in
the leader's assigned program list. -/
def scopeKids (kids : List Kid) (isAdmin : Bool) (progScope : Option String)
    (programs : List String) : List Kid :=
  match progScope with
  | some p => kids.filter (fun k => k.program == p)
  | none =>
    if isAdmin then kids
    else kids.filter (fun k => programs.contains k.program)

/-- Demo kids table: K1 and K3 in program X, K2 in program Y. -/
def demoKids : List Kid :=
  [{ id := "K1", name := "Ama", age := "9", program := "X", dob := "", gender := "F",
     school := "", location := "", guardian_name := "", guardian_contact := "",
     relationship := "", image := "" },
   { id := "K2", name := "Ben", age := "8", program := "Y", dob := "", gender := "M",
     school := "", location := "", guardian_name := "", guardian_contact := "",
     relationship := "", image := "" },
   { id := "K3", name := "Cara", age := "7", program := "X", dob := "", gender := "F",
     school := "", location := "", guardian_name := "", guardian_contact := "",
     relationship := "", image := "" }]

/-- Leader A's marking of program X's kids for 2024-01-05. -/
def demoCheckedA : List (String × Bool) :=
  (scopeKids demoKids false none ["X"]).map (fun k => (k.id, true))

/-- Leader B's marking of program Y's kids for 2024-01-05. -/
def demoCheckedB : List (String × Bool) :=
  (scopeKids demoKids false none ["Y"]).map (fun k => (k.id, true))

/-- Store after leader A saves program X's attendance for 2024-01-05. -/
def demoAtt1 : List AttRecord :=
  [buildRow "2024-01-05" "K1" true "" "X" "leaderA" "T1",
   buildRow "2024-01-05" "K3" true "" "X" "leaderA" "T1"]

/-- Store after leader B then saves program Y's attendance for the same date. -/
def demoAtt2 : List AttRecord :=
  [buildRow "2024-01-05" "K2" true "" "Y" "leaderB" "T2"]

/-- Row of the attendance table used by `pages/2_Attendance.py`
(columns `Date`, `Kid`, `Program`, `Present`). -/
structure AttRow2 where
  Date : String
  Kid : String
  Program : String
  Present : Bool
deriving DecidableEq, Repr

/-- Embeds `save_attendance` of `pages/2_Attendance.py` (lines 16-22): if
`attendance.csv` exists its rows are loaded and the new batch is
concatenated after them; otherwise the batch alone; the result is then
written with a plain `combined.to_csv(ATTENDANCE_CSV)`. -/
def save_attendance (fileExists : Bool) (existing att_df : List AttRow2) :
    List AttRow2 :=
  if fileExists then existing ++ att_df else att_df

/-- Demo batch for `pages/2_Attendance.py`: Ama marked present on 2024-01-05. -/
def demoBatch2 : List AttRow2 :=
  [{ Date := "2024-01-05", Kid := "Ama", Program := "X", Present := true }]

/-- Embeds the kids-table scoping of `page_kids` (`app.py` lines
258-261): `view = kids.copy()`, and for non-admin roles
`view = view[view["program"].isin(allowed)]`. -/
def kidsView (kids : List Kid) (isAdmin : Bool) (allowed : List String) :
    List Kid :=
  if isAdmin then kids else kids.filter (fun k => allowed.contains k.program)

/-- Embeds the program choices of `page_kids` (`app.py` lines 238,
242-250): an admin is offered every nonblank program of the registry
(`programs.csv`), a leader the assigned program list carried in the
session user. -/
def scopePrograms (isAdmin : Bool) (registry assigned : List String) :
    List String :=
  if isAdmin then registry.filter (fun p => pyStrip p != "") else assigned

/-- Resolved access scope (programs, person ids) as `page_kids`
computes it for the signed-in user. -/
def scopeFor (isAdmin : Bool) (assigned registry : List String)
    (kids : List Kid) : List String × List String :=
  (scopePrograms isAdmin registry assigned,
   (kidsView kids isAdmin assigned).map (fun k => k.id))

/-- Row of `users.csv` as `app.py` reads it (columns from
`init_files_and_starter`). -/
structure UserRow where
  username : String
  password : String
  role : String
  programs : String
  full_name : String
deriving DecidableEq, Repr

/-- Row of `users.csv` as `utils/auth.py` reads it (its default file uses
a singular `program` column). -/
structure AuthUser where
  username : String
  password : String
  role : String
  program : String
  full_name : String
deriving DecidableEq, Repr

/-- Session user returned on successful login (both `attempt_login` in
`app.py` and `login_user` in `utils/auth.py`). -/
structure SessionUser where
  username : String
  role : String
  programs : List String
  full_name : String
deriving DecidableEq, Repr

/-- Embeds `[p.strip() for p in progs_raw.split(",") if p.strip()]`. -/
def splitPrograms (progs : String) : List String :=
  ((progs.splitOn ",").map pyStrip).filter (fun p => p != "")

/-- Embeds `login_user` of `utils/auth.py` (lines 25-33): scan the user
rows in order and return the first whose username and password match
exactly and whose role matches case-insensitively. -/
def login_user (users : List AuthUser) (username password role : String) :
    Option SessionUser :=
  match users with
  | [] => none
  | u :: rest =>
    if u.username == username && u.password == password
        && pyLower u.role == pyLower role then
      some { username := u.username, role := u.role,
             programs := splitPrograms u.program, full_name := u.full_name }
    else login_user rest username password role

/-- Embeds `attempt_login` of `app.py` (lines 185-197): select the rows
whose username matches, take the first (`row.iloc[0]`), deny on a
case-insensitive role mismatch, deny on a password mismatch, else return
the session user. -/
def attempt_login (users : List UserRow) (username password chosen_role : String) :
    Option SessionUser :=
  match (users.filter (fun u => u.username == username)).head? with
  | none => none
  | some user =>
    if pyLower user.role != pyLower chosen_role then none
    else if !(password == user.password) then none
    else some { username := user.username, role := user.role,
                programs := splitPrograms user.programs,
                full_name := user.full_name }

/-- Python value: CSV cell strings and the integer labels of a pandas
RangeIndex. -/
inductive PyVal where
  | pyStr : String → PyVal
  | pyInt : Nat → PyVal
deriving DecidableEq, Repr

/-- Python `==` between values of these types: values of different
types compare unequal. -/
def pyEq : PyVal → PyVal → Bool
  | .pyStr a, .pyStr b => a == b
  | .pyInt a, .pyInt b => a == b
  | _, _ => false

/-- Index labels of a freshly loaded DataFrame column: the RangeIndex
0..n-1. -/
def seriesIndex (n : Nat) : List PyVal := (List.range n).map PyVal.pyInt

/-- Embeds Python `x in series` for a pandas Series: membership is
tested against the index labels, not the cell values. -/
def seriesContains (index : List PyVal) (x : PyVal) : Bool :=
  index.any (fun l => pyEq x l)

/-- Embeds `create_user` of `app.py` (lines 175-182): the duplicate test
is `username in users.get("username", [])`, a Series membership test —
hence against the RangeIndex of the loaded frame — and on "no
duplicate" the new row is appended and saved. -/
def create_user (users : List UserRow)
    (username password role programs full_name : String) :
    Bool × List UserRow :=
  if seriesContains (seriesIndex users.length) (PyVal.pyStr username) then
    (false, users)
  else
    (true, users ++ [{ username := username, password := password, role := role,
                       programs := programs, full_name := full_name }])

/-- Embeds `add_program_if_missing` of `app.py` (lines 156-164): strip
the name, ignore blanks, and append only when the lowercased stripped
name is absent from the lowercased stripped registry entries. -/
def add_program_if_missing (progs : List String) (nm : String) : List String :=
  let name := pyStrip nm
  if name = "" then progs
  else if (progs.map (fun p => pyLower (pyStrip p))).contains (pyLower name) then progs
  else progs ++ [name]

/-- Row of the users table of `app_pages/4_Admin.py`. -/
structure AdminUserRow where
  Username : String
  FullName : String
  Role : String
  Program : String
deriving DecidableEq, Repr

/-- Embeds the Add-User submit branch of `run` in `app_pages/4_Admin.py`
(lines 36-52): blank username or full name is an error; a username
already among the stored `Username` values is rejected; otherwise the
stripped row is appended and saved. -/
def admin_add_user (users : List AdminUserRow)
    (username full_name role program : String) : Bool × List AdminUserRow :=
  if pyStrip username == "" || pyStrip full_name == "" then (false, users)
  else if users.any (fun u => u.Username == username) then (false, users)
  else (true, users ++ [{ Username := pyStrip username, FullName := pyStrip full_name,
                          Role := role, Program := program }])

/-- Seeded users table of `app.py` (`init_files_and_starter`), shortened
to the admin row. -/
def demoUsers : List UserRow :=
  [{ username := "admin", password := "123", role := "admin", programs := "",
     full_name := "Administrator" }]

/-- Embeds the confirmed delete branch of `page_kids` (`app.py` lines
375-381): the kids table keeps the rows with a different id, the
attendance table keeps the records with a different kid id, and both
tables are saved. -/
def deleteKid (kids : List Kid) (att : List AttRecord) (kid_id : String) :
    List Kid × List AttRecord :=
  (kids.filter (fun k => k.id != kid_id),
   att.filter (fun r => r.kid_id != kid_id))

/-- Observable contents of the target CSV at each step of
`atomic_save_csv` (`app.py` lines 38-46): after creating the temporary
file, closing it, writing the frame to it, and after the final
`shutil.move` into place.  The target file changes only at the atomic
move. -/
def atomicSaveStates (old new : List AttRecord) : List (List AttRecord) :=
  [old, old, old, new]

/-- Observable contents of `attendance.csv` while
`combined.to_csv(ATTENDANCE_CSV)` of `save_attendance`
(`pages/2_Attendance.py` line 22) rewrites it in place: opening the
path in write mode truncates it, then the rows are written
sequentially. -/
def plainWriteStates (old new : List AttRow2) : List (List AttRow2) :=
  old :: [] :: (List.range new.length).map (fun i => new.take (i + 1))

/-- Store after re-marking program X's 2024-01-05 attendance with the
single-entry mapping K3 absent, note "late". -/
def demoAtt3 : List AttRecord :=
  [buildRow "2024-01-05" "K3" false "late" "X" "leaderA" "T3"]

/-- C2: the store must hold at most one record per (date, person).
`save_attendance` of `pages/2_Attendance.py` only appends — saving the
same day's batch twice leaves two records for (2024-01-05, Ama). -/
theorem append_only_save_duplicates_date_person :
    save_attendance true (save_attendance false [] demoBatch2) demoBatch2
      = demoBatch2 ++ demoBatch2
    ∧ ((save_attendance true (save_attendance false [] demoBatch2) demoBatch2).filter
        (fun r => r.Date == "2024-01-05" && r.Kid == "Ama")).length = 2 := by
  refine ⟨by decide, by decide⟩

/-- C5: the save loop of `page_attendance` performs no scope check: a
`checked` mapping naming K2 — outside the program X leader scope
{K1, K3} — is committed like any other, the store changes, and no error
is reported. -/
theorem out_of_scope_id_committed_without_error :
    ((scopeKids demoKids false none ["X"]).map (fun k => k.id)).contains "K2" = false
    ∧ saveAttendance demoKids [] "2024-01-05" [("K2", true)] [] "leader1" "T1"
        = some [buildRow "2024-01-05" "K2" true "" "Y" "leader1" "T1"]
    ∧ (saveAttendance demoKids [] "2024-01-05" [("K2", true)] [] "leader1" "T1"
        ≠ some []) := by
  refine ⟨by decide, by decide, by decide⟩

/-- C1: saving attendance for a scope on date D must leave records of
persons outside the scope untouched.  The code instead deletes every
record of date D before reinserting (`att[att["date"] != att_str]`):
after leader A marks program X's kids K1, K3 for 2024-01-05 and leader B
marks the disjoint program Y kid K2 for the same date, A's records are
gone — the final store holds only B's record. -/
theorem global_wipe_destroys_other_scope :
    saveAttendance demoKids [] "2024-01-05" demoCheckedA [] "leaderA" "T1"
      = some demoAtt1
    ∧ saveAttendance demoKids demoAtt1 "2024-01-05" demoCheckedB [] "leaderB" "T2"
      = some demoAtt2
    ∧ demoAtt2.all (fun r => r.kid_id != "K1" && r.kid_id != "K3") = true
    ∧ (demoAtt1.filter (fun r => r.kid_id == "K1")).length = 1 := by
  refine ⟨by decide, by decide, by decide, by decide⟩

/-- Every record built by the save loop carries the save's date. -/
theorem buildRows_date_eq (kids : List Kid) (att_str : String)
    (notes : List (String × String)) (username now : String) :
    ∀ (cs : List (String × Bool)) (rows : List AttRecord),
      buildRows kids att_str cs notes username now = some rows →
      ∀ r ∈ rows, r.date = att_str := by
  intro cs
  induction cs with
  | nil =>
    intro rows h r hr
    simp only [buildRows, Option.some.injEq] at h
    subst h
    simp at hr
  | cons c cs ih =>
    intro rows h r hr
    simp only [buildRows] at h
    cases hl : lookupProgram kids c.1 with
    | none => rw [hl] at h; simp at h
    | some prog =>
      rw [hl] at h
      cases hrec : buildRows kids att_str cs notes username now with
      | none => rw [hrec] at h; simp at h
      | some rest =>
        rw [hrec] at h
        simp only [Option.map_some', Option.some.injEq] at h
        subst h
        rcases List.mem_cons.mp hr with h1 | h2
        · subst h1; rfl
        · exact ih rest hrec r h2

/-- C3: the save of `page_attendance` is idempotent: repeating it with
the same date, kids table, `checked`/`notes` mappings, user and
timestamp leaves the store it produced unchanged — the delete-by-date
step removes exactly the rows the first save inserted, and the loop
reinserts them identically. -/
theorem saveAttendance_idem (kids : List Kid) (att : List AttRecord)
    (att_str : String) (checked : List (String × Bool))
    (notes : List (String × String)) (username now : String)
    (att' : List AttRecord)
    (h : saveAttendance kids att att_str checked notes username now = some att') :
    saveAttendance kids att' att_str checked notes username now = some att' := by
  unfold saveAttendance at h ⊢
  cases hb : buildRows kids att_str checked notes username now with
  | none => rw [hb] at h; simp at h
  | some rows =>
    rw [hb] at h
    simp only [Option.map_some', Option.some.injEq] at h ⊢
    subst h
    have hrows : rows.filter (fun r => r.date != att_str) = [] := by
      apply List.filter_eq_nil_iff.mpr
      intro r hr
      have hd := buildRows_date_eq kids att_str notes username now checked rows hb r hr
      simp [hd]
    rw [List.filter_append, hrows, List.append_nil, List.filter_filter]
    congr 1
    apply List.filter_congr
    intro r _
    simp

/-- Witness for C3 at a concrete input: leader A's save of program X for
2024-01-05, repeated on its own output. -/
theorem saveAttendance_idem_witness :
    saveAttendance demoKids demoAtt1 "2024-01-05" demoCheckedA [] "leaderA" "T1"
      = some demoAtt1 :=
  saveAttendance_idem demoKids [] "2024-01-05" demoCheckedA [] "leaderA" "T1"
    demoAtt1 (by decide)

/-- Every record built by the save loop takes its kid id from an entry of
the `checked` mapping. -/
theorem buildRows_kid_mem (kids : List Kid) (att_str : String)
    (notes : List (String × String)) (username now : String) :
    ∀ (cs : List (String × Bool)) (rows : List AttRecord),
      buildRows kids att_str cs notes username now = some rows →
      ∀ r ∈ rows, ∃ c ∈ cs, r.kid_id = c.1 := by
  intro cs
  induction cs with
  | nil =>
    intro rows h r hr
    simp only [buildRows, Option.some.injEq] at h
    subst h
    simp at hr
  | cons c cs ih =>
    intro rows h r hr
    simp only [buildRows] at h
    cases hl : lookupProgram kids c.1 with
    | none => rw [hl] at h; simp at h
    | some prog =>
      rw [hl] at h
      cases hrec : buildRows kids att_str cs notes username now with
      | none => rw [hrec] at h; simp at h
      | some rest =>
        rw [hrec] at h
        simp only [Option.map_some', Option.some.injEq] at h
        subst h
        rcases List.mem_cons.mp hr with h1 | h2
        · exact ⟨c, List.mem_cons_self c cs, by rw [h1]; rfl⟩
        · obtain ⟨c', hc', he⟩ := ih rest hrec r h2
          exact ⟨c', List.mem_cons_of_mem c hc', he⟩

/-- C4: saving scope S on date D with mapping M1 and then again with M2
leaves exactly M2's built records for date D; any person named in no
entry of M2 has no record for D afterwards, even one marked in M1. -/
theorem remark_overwrite (kids : List Kid) (att att1 att2 : List AttRecord)
    (d : String) (c1 c2 : List (String × Bool)) (n1 n2 : List (String × String))
    (u1 t1 u2 t2 : String) (rows2 : List AttRecord)
    (_h1 : saveAttendance kids att d c1 n1 u1 t1 = some att1)
    (h2 : saveAttendance kids att1 d c2 n2 u2 t2 = some att2)
    (hb2 : buildRows kids d c2 n2 u2 t2 = some rows2) :
    att2.filter (fun r => r.date == d) = rows2
    ∧ ∀ p : String, c2.all (fun c => c.1 != p) = true →
        att2.all (fun r => !(r.date == d && r.kid_id == p)) = true := by
  unfold saveAttendance at h2
  rw [hb2] at h2
  simp only [Option.map_some', Option.some.injEq] at h2
  subst h2
  constructor
  · rw [List.filter_append]
    have e1 : (att1.filter (fun r => r.date != d)).filter (fun r => r.date == d)
        = [] := by
      rw [List.filter_filter]
      apply List.filter_eq_nil_iff.mpr
      intro r hr
      cases he : (r.date == d)
      · simp [he]
      · simp [he]
        exact eq_of_beq he
    have e2 : rows2.filter (fun r => r.date == d) = rows2 := by
      apply List.filter_eq_self.mpr
      intro r hr
      have hd := buildRows_date_eq kids d n2 u2 t2 c2 rows2 hb2 r hr
      simp [hd]
    rw [e1, e2, List.nil_append]
  · intro p hall
    simp only [List.all_append, Bool.and_eq_true, List.all_eq_true]
    simp only [List.all_eq_true] at hall
    constructor
    · intro r hr
      have hne := (List.mem_filter.mp hr).2
      cases he : (r.date == d)
      · simp [he]
      · have hd : r.date = d := eq_of_beq he
        rw [hd] at hne
        simp at hne
    · intro r hr
      obtain ⟨c, hc, he⟩ := buildRows_kid_mem kids d n2 u2 t2 c2 rows2 hb2 r hr
      have hcp := hall c hc
      cases hk : (r.kid_id == p)
      · simp [hk]
      · exfalso
        have : r.kid_id = p := by simpa using hk
        rw [he] at this
        rw [this] at hcp
        simp at hcp

/-- C6: an admin's resolved scope is every known (nonblank) program and
every known person; a leader's is exactly the assigned program list
together with precisely the persons whose `program` lies in it. -/
theorem scope_resolution (kids : List Kid) (assigned registry : List String) :
    (scopeFor true assigned registry kids).2 = kids.map (fun k => k.id)
    ∧ (∀ p, p ∈ (scopeFor true assigned registry kids).1 ↔
        p ∈ registry ∧ pyStrip p ≠ "")
    ∧ (scopeFor false assigned registry kids).1 = assigned
    ∧ (∀ k, k ∈ kidsView kids false assigned ↔ k ∈ kids ∧ k.program ∈ assigned)
    ∧ (∀ pid, pid ∈ (scopeFor false assigned registry kids).2 ↔
        ∃ k ∈ kids, k.program ∈ assigned ∧ k.id = pid) := by
  refine ⟨rfl, ?_, rfl, ?_, ?_⟩
  · intro p
    simp [scopeFor, scopePrograms, List.mem_filter]
  · intro k
    simp [kidsView, List.mem_filter]
  · intro pid
    simp [scopeFor, kidsView, List.mem_filter, List.mem_map]
    constructor
    · rintro ⟨k, ⟨hk, hprog⟩, hid⟩
      exact ⟨k, hk, hprog, hid⟩
    · rintro ⟨k, hk, hprog, hid⟩
      exact ⟨k, ⟨hk, hprog⟩, hid⟩

/-- C9: login succeeds exactly when a stored row matches the supplied
username and password exactly and the chosen role case-insensitively;
in `attempt_login` the row tested is the first one whose username
matches.  A correct username and password with a mismatched role is
denied by both functions. -/
theorem login_requires_username_password_role (users : List AuthUser)
    (users2 : List UserRow) (username password role : String) :
    ((login_user users username password role).isSome ↔
      ∃ u ∈ users, u.username = username ∧ u.password = password
        ∧ pyLower u.role = pyLower role)
    ∧ ((attempt_login users2 username password role).isSome ↔
      ∃ u, (users2.filter (fun x => x.username == username)).head? = some u
        ∧ u ∈ users2 ∧ u.username = username ∧ u.password = password
        ∧ pyLower u.role = pyLower role) := by
  constructor
  · induction users with
    | nil => simp [login_user]
    | cons u rest ih =>
      cases hcb : (u.username == username && u.password == password
          && pyLower u.role == pyLower role) with
      | true =>
        have hc' : u.username = username ∧ u.password = password
            ∧ pyLower u.role = pyLower role := by
          simpa [and_assoc] using hcb
        simp only [login_user]
        rw [if_pos hcb]
        simp only [Option.isSome_some, true_iff]
        exact ⟨u, List.mem_cons_self u rest, hc'⟩
      | false =>
        simp only [login_user]
        rw [if_neg (by simp [hcb])]
        rw [ih]
        constructor
        · rintro ⟨x, hx, hp⟩
          exact ⟨x, List.mem_cons_of_mem u hx, hp⟩
        · rintro ⟨x, hx, hp⟩
          rcases List.mem_cons.mp hx with h | hx'
          · subst h
            simp [hp.1, hp.2.1, hp.2.2] at hcb
          · exact ⟨x, hx', hp⟩
  · cases hl : users2.filter (fun x => x.username == username) with
    | nil => simp [attempt_login, hl]
    | cons y ys =>
      have hy : y ∈ users2.filter (fun x => x.username == username) := by
        rw [hl]
        exact List.mem_cons_self y ys
      have hy2 := List.mem_filter.mp hy
      simp only [attempt_login, hl, List.head?_cons, Option.some.injEq]
      by_cases h1 : (pyLower y.role != pyLower role) = true
      · rw [if_pos h1]
        simp only [Option.isSome_none, Bool.false_eq_true, false_iff]
        rintro ⟨u, hu, _, _, _, hrole⟩
        subst hu
        rw [hrole] at h1
        simp at h1
      · rw [if_neg h1]
        by_cases h2 : (!(password == y.password)) = true
        · rw [if_pos h2]
          simp only [Option.isSome_none, Bool.false_eq_true, false_iff]
          rintro ⟨u, hu, _, _, hpass, _⟩
          subst hu
          rw [hpass] at h2
          simp at h2
        · rw [if_neg h2]
          simp only [Option.isSome_some, true_iff]
          have hpass : (password == y.password) = true := by
            simpa using h2
          have hrole : (pyLower y.role != pyLower role) = false := by
            simpa using h1
          refine ⟨y, rfl, hy2.1, eq_of_beq hy2.2, (eq_of_beq hpass).symm, ?_⟩
          simpa using hrole

/-- A string is never a label of a RangeIndex, so the Series membership
test of `create_user` is always false. -/
theorem seriesContains_str_index_false (n : Nat) (s : String) :
    seriesContains (seriesIndex n) (PyVal.pyStr s) = false := by
  simp only [seriesContains, seriesIndex, List.any_eq_false]
  intro a ha
  obtain ⟨i, -, rfl⟩ := List.mem_map.mp ha
  simp [pyEq]

/-- The duplicate check of `create_user` can never fire: every call
appends its row and reports success. -/
theorem create_user_never_rejects (users : List UserRow)
    (username password role programs full_name : String) :
    create_user users username password role programs full_name
      = (true, users ++ [{ username := username, password := password,
                           role := role, programs := programs,
                           full_name := full_name }]) := by
  simp [create_user, seriesContains_str_index_false]

/-- Case-insensitive duplicate program names are rejected with the
registry unchanged, as claimed. -/
theorem add_program_if_missing_rejects_dup (progs : List String) (nm : String)
    (h : (progs.map (fun p => pyLower (pyStrip p))).contains (pyLower (pyStrip nm)) = true) :
    add_program_if_missing progs nm = progs := by
  unfold add_program_if_missing
  by_cases hb : pyStrip nm = ""
  · simp [hb]
  · rw [if_neg hb, if_pos h]

/-- Witness for the duplicate-program rejection at a concrete input. -/
theorem add_program_if_missing_rejects_dup_witness :
    add_program_if_missing ["Football Boys"] " football boys " = ["Football Boys"] :=
  add_program_if_missing_rejects_dup ["Football Boys"] " football boys " (by decide)

/-- C8: duplicate creation must be rejected with the store unchanged.
For programs it is, and the Add-User page checks the stored `Username`
values; but `create_user` of `app.py` tests the username against the
pandas RangeIndex, so a second "admin" user is created and the users
table gains a duplicate row. -/
theorem create_user_admits_duplicate_username :
    create_user demoUsers "admin" "123" "admin" "" "Administrator"
      = (true, demoUsers ++ [{ username := "admin", password := "123",
                               role := "admin", programs := "",
                               full_name := "Administrator" }])
    ∧ ((create_user demoUsers "admin" "123" "admin" "" "Administrator").2.filter
        (fun u => u.username == "admin")).length = 2
    ∧ add_program_if_missing ["Football Boys"] "football boys" = ["Football Boys"]
    ∧ admin_add_user
        [{ Username := "admin", FullName := "Administrator", Role := "Admin",
           Program := "Youth" }] "admin" "Admin Two" "Admin" "Teens"
      = (false, [{ Username := "admin", FullName := "Administrator",
                   Role := "Admin", Program := "Youth" }]) := by
  refine ⟨by decide, by decide, by decide, by decide⟩

/-- C10: confirming deletion of kid K removes K's row and every
attendance record with kid id K; every other kid row and record
survives unchanged and in order, and afterwards no attendance record
references K. -/
theorem delete_kid_removes_exactly_kid (kids : List Kid)
    (att : List AttRecord) (K : String) :
    (∀ k, k ∈ (deleteKid kids att K).1 ↔ k ∈ kids ∧ k.id ≠ K)
    ∧ (∀ r, r ∈ (deleteKid kids att K).2 ↔ r ∈ att ∧ r.kid_id ≠ K)
    ∧ (deleteKid kids att K).1.Sublist kids
    ∧ (deleteKid kids att K).2.Sublist att
    ∧ (deleteKid kids att K).2.all (fun r => r.kid_id != K) = true := by
  refine ⟨?_, ?_, List.filter_sublist kids, List.filter_sublist att, ?_⟩
  · intro k
    simp [deleteKid, List.mem_filter]
  · intro r
    simp [deleteKid, List.mem_filter]
  · simp only [deleteKid, List.all_eq_true]
    intro r hr
    exact (List.mem_filter.mp hr).2

/-- The commit of `atomic_save_csv` is all-or-nothing: a reader of the
target path sees either the prior contents or the new contents at every
step. -/
theorem atomicSaveStates_all_or_nothing (old new : List AttRecord) :
    ∀ s ∈ atomicSaveStates old new, s = old ∨ s = new := by
  intro s hs
  simp only [atomicSaveStates, List.mem_cons, List.not_mem_nil, or_false] at hs
  rcases hs with rfl | rfl | rfl | rfl
  · exact Or.inl rfl
  · exact Or.inl rfl
  · exact Or.inl rfl
  · exact Or.inr rfl

/-- C7: a partway failure of an attendance commit must leave the prior
state readable.  `save_attendance` of `pages/2_Attendance.py` commits
with an in-place `to_csv` (no temporary file, no atomic move): while it
rewrites the second day's combined store, a reader can observe the
truncated file — neither the prior nor the new contents. -/
theorem in_place_write_exposes_torn_state :
    ∃ s ∈ plainWriteStates demoBatch2 (save_attendance true demoBatch2 demoBatch2),
      s ≠ demoBatch2 ∧ s ≠ save_attendance true demoBatch2 demoBatch2 := by
  decide

/-- Witness for C4 at a concrete input: mark K1 and K3 present, then
re-mark with only K3; K1 has no record for the date. -/
theorem remark_overwrite_witness :
    demoAtt3.filter (fun r => r.date == "2024-01-05") = demoAtt3
    ∧ ∀ p : String, ([("K3", false)] : List (String × Bool)).all
          (fun c => c.1 != p) = true →
        demoAtt3.all (fun r => !(r.date == "2024-01-05" && r.kid_id == p)) = true :=
  remark_overwrite demoKids [] demoAtt1 demoAtt3 "2024-01-05" demoCheckedA
    [("K3", false)] [] [("K3", "late")] "leaderA" "T1" "leaderA" "T3" demoAtt3
    (by decide) (by decide) (by decide)
